import Mathlib

/-
Verification of the acquisition-and-aggregation pipeline of the
fs-2.0-prototype repository.

Shallow embedding of:
  * servers/familysearch-web-search/rate_limiter.py  (RateLimiter, RetryHandler)
  * servers/familysearch-web-search/server.py        (FamilySearchWebSearcher)
  * servers/records-router/server.py                 (merge_search_results,
                                                      calculate_confidence,
                                                      search_records)

Timestamps and delays are modelled as rationals; the asynchronous sleeps of
the source are modelled by explicit clock arithmetic: every operation takes
the current time and returns the time at which it completes.
-/

namespace FS

/-! ## RateLimiter (rate_limiter.py, class RateLimiter) -/

/-- Constructor arguments of RateLimiter: requests_per_minute and
requests_per_hour. The window lengths are fixed at 60 s and 3600 s. -/
structure RLConfig where
  requests_per_minute : ℕ
  requests_per_hour : ℕ
deriving DecidableEq

/-- Mutable state of a RateLimiter: the two timestamp deques and the time of
the last granted request (initialised to 0 in the source). -/
structure RLState where
  minute_requests : List ℚ
  hour_requests : List ℚ
  last_request_time : ℚ
deriving DecidableEq

/-- Fresh RateLimiter state: empty deques, last_request_time = 0. -/
def RLState.init : RLState := ⟨[], [], 0⟩

/-- min_delay = 60.0 / requests_per_minute if requests_per_minute > 0 else 0. -/
def RLConfig.min_delay (cfg : RLConfig) : ℚ :=
  if 0 < cfg.requests_per_minute then 60 / (cfg.requests_per_minute : ℚ) else 0

/-- The popleft loop of _cleanup_old_requests for one deque: drop leading
timestamps x with current_time - x >= window. -/
def dropOld (window : ℚ) (t : ℚ) : List ℚ → List ℚ
  | [] => []
  | x :: xs => if window ≤ t - x then dropOld window t xs else x :: xs

/-- RateLimiter._cleanup_old_requests(current_time). -/
def cleanup_old_requests (t : ℚ) (s : RLState) : RLState :=
  { s with
    minute_requests := dropOld 60 t s.minute_requests
    hour_requests := dropOld 3600 t s.hour_requests }

/-- RateLimiter.acquire, called at (simulated) time t.  Returns the updated
state and the real time at which the call returns, i.e. t plus all sleeps.
The source computes every wait from the single time.time() value read at
entry (variable current_time) and appends that same stale value to both
deques after sleeping; this embedding reproduces that literally.
The headD 0 is only reached when the respective limit is 0 (where the
source would raise an IndexError); all modelled configurations have
positive limits. -/
def acquire (cfg : RLConfig) (s : RLState) (t : ℚ) : RLState × ℚ :=
  let s1 := cleanup_old_requests t s
  let w1 : ℚ :=
    if cfg.requests_per_minute ≤ s1.minute_requests.length then
      max 0 (60 - (t - s1.minute_requests.headD 0))
    else 0
  let w2 : ℚ :=
    if cfg.requests_per_hour ≤ s1.hour_requests.length then
      max 0 (3600 - (t - s1.hour_requests.headD 0))
    else 0
  let time_since_last := t - s1.last_request_time
  let w3 : ℚ :=
    if time_since_last < cfg.min_delay then cfg.min_delay - time_since_last
    else 0
  let s2 : RLState :=
    { minute_requests := s1.minute_requests ++ [t]
      hour_requests := s1.hour_requests ++ [t]
      last_request_time := t }
  (s2, t + w1 + w2 + w3)

/-- Run n sequential acquire calls, the first issued at time t and each
subsequent one issued at the instant the previous call returns.  Returns the
final state, the return time of the last call, and the list of times at
which the successive calls returned (the real times at which the grants
were recorded). -/
def runAcquires (cfg : RLConfig) : ℕ → RLState → ℚ → RLState × ℚ × List ℚ
  | 0, s, t => (s, t, [])
  | n + 1, s, t =>
    let p := acquire cfg s t
    let q := runAcquires cfg n p.1 p.2
    (q.1, q.2.1, p.2 :: q.2.2)

/-! ## RetryHandler (rate_limiter.py, class RetryHandler) -/

/-- Error taxonomy of the spec (section 7).  The retryable flag records the
caller-side classification; the source RetryHandler itself catches every
Exception indiscriminately and never consults such a classification. -/
inductive PyError where
  | transient (msg : String)
  | permanent (msg : String)
deriving DecidableEq

/-- A transient (retryable) error per the spec taxonomy. -/
def PyError.retryable : PyError → Bool
  | .transient _ => true
  | .permanent _ => false

/-- Constructor arguments of RetryHandler. -/
structure RetryPolicy where
  max_retries : ℕ
  base_delay : ℚ
  max_delay : ℚ
deriving DecidableEq

/-- The attempt loop of RetryHandler.execute_with_retry.  The operation is
modelled as a function from the attempt index to its outcome.  Arguments:
current attempt index and the number of attempts still allowed after this
one (the loop bound max_retries + 1 minus attempts already made).  Returns
the final outcome (the value of the first successful attempt, or the
exception of the last attempt re-raised), the number of times the
operation was invoked, and the list of backoff sleeps performed, where the
sleep after attempt i is min(base_delay * 2 ** i, max_delay). -/
def retryGo (base maxd : ℚ) (op : ℕ → Except PyError α) :
    ℕ → ℕ → Except PyError α × ℕ × List ℚ
  | attempt, 0 =>
    match op attempt with
    | .ok a => (.ok a, 1, [])
    | .error e => (.error e, 1, [])
  | attempt, fuel + 1 =>
    match op attempt with
    | .ok a => (.ok a, 1, [])
    | .error _ =>
      let d := min (base * 2 ^ attempt) maxd
      let r := retryGo base maxd op (attempt + 1) fuel
      (r.1, r.2.1 + 1, d :: r.2.2)

/-- RetryHandler.execute_with_retry: attempts 0 .. max_retries. -/
def execute_with_retry (p : RetryPolicy) (op : ℕ → Except PyError α) :
    Except PyError α × ℕ × List ℚ :=
  retryGo p.base_delay p.max_delay op 0 p.max_retries

end FS

namespace FS.Router

/-! ## records-router/server.py -/

/-- A standardized search-result dict of the records router (model
SearchResult plus the type tag the tool implementations attach).  The dict
accesses result.get(key, default) of the source are total here because
every call site of merge_search_results in the source sets these keys. -/
structure RRDict where
  provider : String := ""
  name : String := ""
  birthDate : Option String := none
  deathDate : Option String := none
  residencePlace : Option String := none
  recordUrl : String := ""
  fsId : String := ""
  confidence : ℚ := 0
  type : String := ""
deriving DecidableEq

/-- One dynamic-programming row update for the longest common subsequence
length: walks the first string with the previous row and the value computed
to the left. -/
def lcsRowAux (y : Char) : List Char → List ℕ → ℕ → List ℕ
  | [], _, _ => []
  | _ :: _, [], _ => []
  | x :: xs, pdiag :: prest, left =>
    let cur := if x = y then pdiag + 1 else max left (prest.headD 0)
    cur :: lcsRowAux y xs prest cur

/-- Length of the longest common subsequence of two character lists. -/
def lcsLen (a b : List Char) : ℕ :=
  (b.foldl (fun row y => 0 :: lcsRowAux y a row 0)
    (List.replicate (a.length + 1) 0)).getLastD 0

/-- Modelled from the spec and the documented behaviour of the external
rapidfuzz library (not part of src/): fuzz.ratio(s, t) is the normalized
indel similarity scaled to 0..100, that is 100 * (|s| + |t| - dist)/(|s| +
|t|) = 100 * 2 * lcs(s, t) / (|s| + |t|), and 100 for two empty strings. -/
def fuzzSimilarity (s t : String) : ℚ :=
  if s.data.length + t.data.length = 0 then 100
  else 100 * 2 * (lcsLen s.data t.data : ℚ)
    / ((s.data.length : ℚ) + (t.data.length : ℚ))

/-- calculate_confidence(query, result): 0.0 for a missing or empty name,
else fuzz.ratio of the lowercased query and name, divided by 100. -/
def calculate_confidence (query : String) (result_name : String) : ℚ :=
  if result_name = "" then 0
  else fuzzSimilarity query.toLower result_name.toLower / 100

/-- The deduplication key of merge_search_results:
f-string name_fsId. -/
def dedupKey (r : RRDict) : String := r.name ++ "_" ++ r.fsId

/-- The dedup loop of merge_search_results: keep a result only if its key
was not seen before (the seen set is modelled as the list of keys already
added). -/
def dedupFirst (seen : List String) : List RRDict → List RRDict
  | [] => []
  | r :: rs =>
    if dedupKey r ∈ seen then dedupFirst seen rs
    else r :: dedupFirst (dedupKey r :: seen) rs

/-- The sort key relation of merged.sort(key=confidence, reverse=True):
a comes no later than b when the confidence of b is at most that of a. -/
def confGe (a b : RRDict) : Prop := b.confidence ≤ a.confidence

instance : DecidableRel confGe :=
  fun a b => inferInstanceAs (Decidable (b.confidence ≤ a.confidence))

instance : IsTotal RRDict confGe := ⟨fun a b => le_total b.confidence a.confidence⟩

instance : IsTrans RRDict confGe := ⟨fun _ _ _ hab hbc => le_trans hbc hab⟩

/-- merge_search_results: drop results whose name_fsId key was already
seen (keeping first occurrences), then sort by descending confidence.
Python list.sort is stable; insertionSort with confGe realises exactly
that stable descending sort. -/
def merge_search_results (l : List RRDict) : List RRDict :=
  (dedupFirst [] l).insertionSort confGe

/-- A collection entry of the get_familysearch_collections payload; the
source reads the title key (default Unknown) and the id key (default the
empty string). -/
structure CItem where
  title : Option String := none
  id : Option String := none
deriving DecidableEq

/-- The tree-info / records-info payloads; the source reads the title and
collection_id keys, each with a block-specific default. -/
structure TDict where
  title : Option String := none
  collection_id : Option String := none
deriving DecidableEq

/-- The filters dict of search_records; the source reads the year key
(default 1850) and the place key (default absent). -/
structure Filters where
  year : Option Int := none
  place : Option String := none

/-- Arguments passed to the search_census_records tool call. -/
structure SearchArgs where
  given_name : String
  surname : String
  year : Int
  place : Option String
  max_results : ℕ
deriving DecidableEq

/-- The upstream FamilySearch MCP server as seen by the router: the outcome
of each of the four tool calls issued by search_records.  An error value
models the HTTP call (or its processing) raising an exception. -/
structure RouterEnv where
  collections : Except PyError (List CItem)
  tree_info : Except PyError (Option TDict)
  records_info : Except PyError (Option TDict)
  search : SearchArgs → Except PyError (List RRDict)

/-- call_familysearch_api for list-shaped content: every exception is
caught, logged and turned into the empty list. -/
def call_api_list {α : Type} : Except PyError (List α) → List α
  | .ok l => l
  | .error _ => []

/-- call_familysearch_api for optional dict-shaped content: every exception
is caught, logged and turned into an absent (falsy) value. -/
def call_api_opt {α : Type} : Except PyError (Option α) → Option α
  | .ok o => o
  | .error _ => none

/-- Python str.split() with no separator: split on whitespace runs,
discarding empty fragments; acc carries the current fragment reversed. -/
def splitWSAux : List Char → List Char → List String
  | [], acc => if acc = [] then [] else [String.mk acc.reverse]
  | c :: cs, acc =>
    if c.isWhitespace then
      if acc = [] then splitWSAux cs []
      else String.mk acc.reverse :: splitWSAux cs []
    else splitWSAux cs (c :: acc)

/-- query.split() of the source. -/
def pySplit (s : String) : List String := splitWSAux s.data []

/-- Step 1 of the familysearch branch of search_records: collection info
as metadata results (try/except around the whole block: a transport
failure was already absorbed into an empty list by call_familysearch_api). -/
def collectionsBlock (env : RouterEnv) : List RRDict :=
  (call_api_list env.collections).map (fun c =>
    { provider := "familysearch"
      name := "Collection: " ++ c.title.getD "Unknown"
      birthDate := none, deathDate := none, residencePlace := none
      recordUrl := "https://familysearch.org/collections/" ++ c.id.getD ""
      fsId := c.id.getD ""
      confidence := 8/10
      type := "collection_info" })

/-- Step 2 of the familysearch branch: the family-tree info result,
appended only when the payload is truthy. -/
def treeBlock (env : RouterEnv) : List RRDict :=
  match call_api_opt env.tree_info with
  | none => []
  | some t =>
    [{ provider := "familysearch"
       name := "Family Tree: " ++ t.title.getD "FamilySearch Family Tree"
       birthDate := none, deathDate := none, residencePlace := none
       recordUrl := "https://familysearch.org/tree"
       fsId := t.collection_id.getD "FSFT"
       confidence := 9/10
       type := "tree_info" }]

/-- Step 3 of the familysearch branch: the historical-records info result. -/
def recordsBlock (env : RouterEnv) : List RRDict :=
  match call_api_opt env.records_info with
  | none => []
  | some t =>
    [{ provider := "familysearch"
       name := "Records: " ++ t.title.getD "FamilySearch Historical Records"
       birthDate := none, deathDate := none, residencePlace := none
       recordUrl := "https://familysearch.org/search"
       fsId := t.collection_id.getD "FSHRA"
       confidence := 9/10
       type := "records_info" }]

/-- Step 4 of the familysearch branch: the actual census search, attempted
only when the query splits into at least two name parts; each returned
record is annotated with provider, computed confidence and type. -/
def searchBlock (env : RouterEnv) (query : String) (filters : Filters) :
    List RRDict :=
  let name_parts := pySplit query
  if 2 ≤ name_parts.length then
    let args : SearchArgs :=
      ⟨name_parts.headD "", name_parts.getLastD "",
        filters.year.getD 1850, filters.place, 10⟩
    (call_api_list (env.search args)).map (fun r =>
      { r with
        provider := "familysearch"
        confidence := calculate_confidence query r.name
        type := "search_result" })
  else []

/-- The four steps of the familysearch branch of search_records, in source
order. -/
def providerResults (env : RouterEnv) (query : String) (filters : Filters) :
    List RRDict :=
  collectionsBlock env ++ treeBlock env ++ recordsBlock env
    ++ searchBlock env query filters

/-- search_records of the records router: iterate over the requested
providers (only familysearch is implemented; other names contribute
nothing), collect all results, then merge and deduplicate. -/
def search_records (env : RouterEnv) (query : String)
    (providers : List String) (filters : Filters) : List RRDict :=
  merge_search_results
    (providers.foldl
      (fun acc p =>
        if p = "familysearch" then acc ++ providerResults env query filters
        else acc)
      [])

/-- Replace every failing upstream interaction by an empty success,
leaving successful ones untouched. -/
def absorbList {α : Type} : Except PyError (List α) → Except PyError (List α)
  | .error _ => .ok []
  | .ok l => .ok l

/-- Replace a failing optional-payload interaction by an absent success. -/
def absorbOpt {α : Type} : Except PyError (Option α) → Except PyError (Option α)
  | .error _ => .ok none
  | .ok o => .ok o

/-- The environment with every upstream failure replaced by an empty
success. -/
def absorbFailures (env : RouterEnv) : RouterEnv :=
  { collections := absorbList env.collections
    tree_info := absorbOpt env.tree_info
    records_info := absorbOpt env.records_info
    search := fun a => absorbList (env.search a) }

end FS.Router

namespace FS.WebSearch

/-! ## familysearch-web-search/server.py (FamilySearchWebSearcher) -/

/-- The SearchResult pydantic model of the web-search server. -/
structure SearchResult where
  title : String := ""
  url : String := ""
  record_type : String := ""
  date_range : Option String := none
  location : Option String := none
  description : Option String := none
  fs_id : Option String := none
deriving DecidableEq

/-- The SearchRequest pydantic model of the web-search server. -/
structure SearchRequest where
  given_name : Option String := none
  surname : Option String := none
  year : Option Int := none
  year_range : Option String := none
  location : Option String := none
  record_type : Option String := none
  max_results : ℕ := 20
deriving DecidableEq

/-- Python f-string rendering of an optional string: None prints as the
four characters None, a present string prints as itself. -/
def pyShowOptStr : Option String → String
  | none => "None"
  | some s => s

/-- Python f-string rendering of an optional integer. -/
def pyShowOptInt : Option Int → String
  | none => "None"
  | some i => toString i

/-- The cache key (query fingerprint) computed at the top of
search_records: the underscore-joined f-string of given_name, surname,
year, location, record_type and max_results.  year_range is not part of
the key, and no whitespace normalization is applied. -/
def cache_key (r : SearchRequest) : String :=
  pyShowOptStr r.given_name ++ "_" ++ pyShowOptStr r.surname ++ "_"
    ++ pyShowOptInt r.year ++ "_" ++ pyShowOptStr r.location ++ "_"
    ++ pyShowOptStr r.record_type ++ "_" ++ toString r.max_results

/-- Modelled from the spec: two parameter values differ only in whitespace
when they agree after deleting every whitespace character. -/
def stripWS (s : String) : String :=
  String.mk (s.data.filter (fun c => !c.isWhitespace))

/-- The cache-read logic of search_records (lines: `if cache_key in
self.cache` and the TTL test): returns the hit value when fresh, and the
possibly updated cache dict (an expired entry is deleted; a hit or a plain
miss leaves the dict untouched).  The dict is modelled as an association
list of (key, value, insertion time). -/
def cacheGet {α : Type} (c : List (String × α × ℚ)) (k : String)
    (now ttl : ℚ) : Option α × List (String × α × ℚ) :=
  match c.find? (fun e => e.1 == k) with
  | none => (none, c)
  | some e =>
    if now - e.2.2 < ttl then (some e.2.1, c)
    else (none, c.filter (fun x => !(x.1 == k)))

/-- The cache write `self.cache[cache_key] = (results, current_time)`:
overwrite any previous entry for that key. -/
def cachePut {α : Type} (c : List (String × α × ℚ)) (k : String) (v : α)
    (t : ℚ) : List (String × α × ℚ) :=
  (k, v, t) :: c.filter (fun x => !(x.1 == k))

/-- The config.settings values consumed by FamilySearchWebSearcher
(defaults as in config.py). -/
structure WSConfig where
  requests_per_minute : ℕ := 30
  requests_per_hour : ℕ := 1000
  max_retries : ℕ := 3
  retry_delay : ℚ := 1
  retry_backoff : ℚ := 2
  cache_ttl : ℚ := 3600

/-- The RateLimiter constructed in FamilySearchWebSearcher.__init__. -/
def WSConfig.rl (c : WSConfig) : RLConfig :=
  ⟨c.requests_per_minute, c.requests_per_hour⟩

/-- The RetryHandler constructed in __init__, with
max_delay = retry_backoff * max_retries. -/
def WSConfig.retryPolicy (c : WSConfig) : RetryPolicy :=
  ⟨c.max_retries, c.retry_delay, c.retry_backoff * (c.max_retries : ℚ)⟩

/-- Whole-searcher state: the cache dict, the rate-limiter state, the
simulated wall clock, and two instrumentation counters: the number of
upstream HTTP GETs issued and the number of execute_with_retry
invocations. -/
structure WSState where
  cache : List (String × List SearchResult × ℚ)
  rl : RLState
  now : ℚ
  upstream_calls : ℕ
  retry_execs : ℕ
deriving DecidableEq

/-- The search_params dict built inside _perform_search.  Note the Python
truthiness tests: an empty string, None, and the year 0 are falsy and the
parameter is then omitted; year_range is never consulted. -/
def buildSearchParams (r : SearchRequest) : List (String × String) :=
  (match r.given_name with
   | some s => if s = "" then [] else [("givenName", s)]
   | none => [])
  ++ (match r.surname with
      | some s => if s = "" then [] else [("surname", s)]
      | none => [])
  ++ (match r.year with
      | some y => if y = 0 then [] else [("eventDate", toString y)]
      | none => [])
  ++ (match r.location with
      | some s => if s = "" then [] else [("place", s)]
      | none => [])
  ++ (match r.record_type with
      | some s => if s = "" then [] else [("recordType", s)]
      | none => [])

/-- The upstream web interface: the combined outcome of the HTTP GET,
raise_for_status and HTML parsing, as a function of the search parameters
(an error models a raised exception); deterministic within a run. -/
abbrev Web : Type := List (String × String) → Except PyError (List SearchResult)

/-- _perform_search: acquire a rate-limit slot (advancing the clock by the
sleeps), issue the GET (counted by upstream_calls), parse at most
max_results results. -/
def performSearch (cfg : WSConfig) (env : Web) (req : SearchRequest)
    (st : WSState) : Except PyError (List SearchResult) × WSState :=
  let a := acquire cfg.rl st.rl st.now
  let st1 : WSState :=
    { st with rl := a.1, now := a.2, upstream_calls := st.upstream_calls + 1 }
  match env (buildSearchParams req) with
  | .ok rs => (.ok (rs.take req.max_results), st1)
  | .error e => (.error e, st1)

/-- The RetryHandler attempt loop over the stateful _perform_search
closure; backoff sleeps advance the clock. -/
def retryGoSt (base maxd : ℚ)
    (op : WSState → Except PyError (List SearchResult) × WSState) :
    ℕ → ℕ → WSState → Except PyError (List SearchResult) × WSState
  | _, 0, st =>
    match op st with
    | (.ok a, st1) => (.ok a, st1)
    | (.error e, st1) => (.error e, st1)
  | attempt, fuel + 1, st =>
    match op st with
    | (.ok a, st1) => (.ok a, st1)
    | (.error _, st1) =>
      let d := min (base * 2 ^ attempt) maxd
      retryGoSt base maxd op (attempt + 1) fuel { st1 with now := st1.now + d }

/-- self.retry_handler.execute_with_retry(_perform_search); entering the
executor bumps the retry_execs instrumentation counter. -/
def execute_with_retry_st (p : RetryPolicy)
    (op : WSState → Except PyError (List SearchResult) × WSState)
    (st : WSState) : Except PyError (List SearchResult) × WSState :=
  retryGoSt p.base_delay p.max_delay op 0 p.max_retries
    { st with retry_execs := st.retry_execs + 1 }

/-- FamilySearchWebSearcher.search_records: compute the cache key, read
time.time() into current_time, consult the cache (returning a fresh hit
immediately, deleting an expired entry), otherwise run _perform_search
under the retry handler and — on success only — cache the results under
current_time (the pre-search clock value, exactly as the source does)
before returning them; a search failure propagates and caches nothing. -/
def search_records (cfg : WSConfig) (env : Web) (st : WSState)
    (req : SearchRequest) : Except PyError (List SearchResult) × WSState :=
  let key := cache_key req
  let current_time := st.now
  match cacheGet st.cache key current_time cfg.cache_ttl with
  | (some rs, c1) => (.ok rs, { st with cache := c1 })
  | (none, c1) =>
    let st0 : WSState := { st with cache := c1 }
    match execute_with_retry_st cfg.retryPolicy (performSearch cfg env req) st0 with
    | (.ok rs, st1) =>
      (.ok rs, { st1 with cache := cachePut st1.cache key rs current_time })
    | (.error e, st1) => (.error e, st1)

end FS.WebSearch

-- ===== END OF DEFINITIONS =====

/-- Helper: on an operation that fails at every attempt, the loop starting
at attempt a with fuel f makes f + 1 invocations, sleeps the capped
exponential delays for attempts a .. a + f - 1, and re-raises the error of
the final attempt a + f. -/
theorem FS.retryGo_allFail (base maxd : ℚ) (op : ℕ → Except PyError α)
    (errs : ℕ → PyError) (hfail : ∀ i, op i = .error (errs i)) :
    ∀ f a, retryGo base maxd op a f =
      (.error (errs (a + f)), f + 1,
        (List.range f).map (fun i => min (base * 2 ^ (a + i)) maxd)) := by
  intro f
  induction f with
  | zero =>
    intro a
    rw [retryGo, hfail a]
    simp
  | succ f ih =>
    intro a
    rw [retryGo, hfail a]
    simp only [ih (a + 1)]
    have h1 : a + 1 + f = a + (f + 1) := by omega
    have h2 : (List.range (f + 1)).map (fun i => min (base * 2 ^ (a + i)) maxd)
        = min (base * 2 ^ a) maxd ::
          (List.range f).map (fun i => min (base * 2 ^ (a + 1 + i)) maxd) := by
      rw [List.range_succ_eq_map]
      simp only [List.map_cons, List.map_map, Nat.add_zero]
      refine congrArg₂ _ rfl (List.map_congr_left ?_)
      intro i _
      simp only [Function.comp_apply]
      have h3 : a + (i + 1) = a + 1 + i := by omega
      rw [h3]
    rw [h1, h2]


/-- Helper: inserting a result into a list moves past only strictly more
confident results, so filtering at any fixed confidence value commutes
with the insertion. -/
theorem FS.Router.filter_orderedInsert (c : ℚ) (a : RRDict) (l : List RRDict) :
    (l.orderedInsert confGe a).filter (fun r => r.confidence == c)
      = if a.confidence = c
        then a :: l.filter (fun r => r.confidence == c)
        else l.filter (fun r => r.confidence == c) := by
  induction l with
  | nil =>
    by_cases hac : a.confidence = c <;>
      simp [List.orderedInsert, List.filter_cons, hac]
  | cons b l ih =>
    by_cases hab : confGe a b
    · rw [List.orderedInsert, if_pos hab]
      by_cases hac : a.confidence = c <;> simp [List.filter_cons, hac]
    · rw [List.orderedInsert, if_neg hab]
      have hlt : a.confidence < b.confidence := lt_of_not_le hab
      by_cases hac : a.confidence = c
      · have hbc : ¬ b.confidence = c := by
          intro hb
          rw [hac, hb] at hlt
          exact lt_irrefl c hlt
        simp [List.filter_cons, hbc, ih, hac]
      · by_cases hbc : b.confidence = c <;>
          simp [List.filter_cons, hbc, ih, hac]

/-- Helper: the stable descending insertion sort preserves the relative
order of entries of any fixed confidence value. -/
theorem FS.Router.filter_insertionSort (c : ℚ) (l : List RRDict) :
    (l.insertionSort confGe).filter (fun r => r.confidence == c)
      = l.filter (fun r => r.confidence == c) := by
  induction l with
  | nil => rfl
  | cons b l ih =>
    rw [List.insertionSort, filter_orderedInsert]
    by_cases hbc : b.confidence = c <;> simp [List.filter_cons, hbc, ih]

/-- Helper: deduplication keeps a subsequence of the input, in order. -/
theorem FS.Router.dedupFirst_sublist (seen : List String) (l : List RRDict) :
    List.Sublist (dedupFirst seen l) l := by
  induction l generalizing seen with
  | nil => exact List.Sublist.refl []
  | cons r rs ih =>
    rw [dedupFirst]
    by_cases h : dedupKey r ∈ seen
    · rw [if_pos h]
      exact (ih seen).cons r
    · rw [if_neg h]
      exact (ih (dedupKey r :: seen)).cons₂ r


/-! ## Claim C1 -/

/-- Claim C1 (code bug evidence): with requests_per_minute = 2, four
sequential acquire() calls starting at t = 1000 complete (and record their
grants) at times 1000, 1030, 1060, 1060.  The sublist [1030, 1060, 1060] of
those grant times lies wholly inside the trailing 60-second window ending
at 1060 and has 3 > 2 elements, so the per-minute limit is exceeded; and
after the third call the minute deque holds the three recorded timestamps
1000, 1000, 1030, all inside the trailing 60-second window ending at 1030.
The cause: acquire records the time.time() value read before its sleeps
and never re-checks the window after sleeping. -/
theorem C1_rate_limiter_window_violation :
    (FS.runAcquires ⟨2, 1000⟩ 4 FS.RLState.init 1000).2.2
        = [1000, 1030, 1060, 1060] ∧
    List.Sublist ([1030, 1060, 1060] : List ℚ)
        (FS.runAcquires ⟨2, 1000⟩ 4 FS.RLState.init 1000).2.2 ∧
    (∀ g ∈ ([1030, 1060, 1060] : List ℚ), 1060 - g < 60 ∧ 0 ≤ 1060 - g) ∧
    2 < ([1030, 1060, 1060] : List ℚ).length ∧
    (FS.runAcquires ⟨2, 1000⟩ 3 FS.RLState.init 1000).1.minute_requests
        = [1000, 1000, 1030] ∧
    (∀ g ∈ ([1000, 1000, 1030] : List ℚ), 1030 - g < 60 ∧ 0 ≤ 1030 - g) := by
  have h4 : (FS.runAcquires ⟨2, 1000⟩ 4 FS.RLState.init 1000).2.2
      = [1000, 1030, 1060, 1060] := by
    norm_num [FS.runAcquires, FS.acquire, FS.cleanup_old_requests, FS.dropOld,
      FS.RLState.init, FS.RLConfig.min_delay]
  refine ⟨h4, ?_, ?_, ?_, ?_, ?_⟩
  · rw [h4]
    exact (List.Sublist.refl _).cons 1000
  · intro g hg
    simp only [List.mem_cons, List.not_mem_nil, or_false] at hg
    rcases hg with rfl | rfl | rfl <;> norm_num
  · norm_num
  · norm_num [FS.runAcquires, FS.acquire, FS.cleanup_old_requests, FS.dropOld,
      FS.RLState.init, FS.RLConfig.min_delay]
  · intro g hg
    simp only [List.mem_cons, List.not_mem_nil, or_false] at hg
    rcases hg with rfl | rfl | rfl <;> norm_num

/-! ## Claims C4 and C5 -/

/-- Claim C4: if the operation raises on every attempt, execute_with_retry
invokes it exactly max_retries + 1 times in total (the spec-level attempt
budget max_attempts), the backoff sleeps between consecutive attempts are
non-decreasing and never exceed max_delay, and the exception of the final
attempt is re-raised as-is. -/
theorem C4_retry_exhaustion {α : Type} (p : FS.RetryPolicy)
    (op : ℕ → Except FS.PyError α) (errs : ℕ → FS.PyError)
    (hfail : ∀ i, op i = .error (errs i)) (hbase : 0 ≤ p.base_delay) :
    (FS.execute_with_retry p op).2.1 = p.max_retries + 1 ∧
    (FS.execute_with_retry p op).1 = .error (errs p.max_retries) ∧
    List.Chain' (· ≤ ·) (FS.execute_with_retry p op).2.2 ∧
    (∀ d ∈ (FS.execute_with_retry p op).2.2, d ≤ p.max_delay) := by
  have h := FS.retryGo_allFail p.base_delay p.max_delay op errs hfail p.max_retries 0
  rw [FS.execute_with_retry, h]
  simp only [Nat.zero_add]
  refine ⟨trivial, trivial, ?_, ?_⟩
  · have hpair : List.Pairwise (· < ·) (List.range p.max_retries) :=
      List.pairwise_lt_range p.max_retries
    refine List.Pairwise.chain' (List.Pairwise.map _ ?_ hpair)
    intro a b hab
    refine min_le_min (mul_le_mul_of_nonneg_left ?_ hbase) le_rfl
    exact pow_le_pow_right₀ (by norm_num) (le_of_lt hab)
  · intro d hd
    simp only [List.mem_map, List.mem_range] at hd
    obtain ⟨i, _, rfl⟩ := hd
    exact min_le_right _ _

/-- Witness for C4 at the deployed configuration (max_retries = 3,
base_delay = 1, max_delay = 6) with an operation that always raises a
transient quota error. -/
theorem C4_retry_exhaustion_witness :
    (FS.execute_with_retry ⟨3, 1, 6⟩
        (fun _ => (Except.error (FS.PyError.transient "429") : Except FS.PyError Unit))).2.1
      = 4 ∧
    (FS.execute_with_retry ⟨3, 1, 6⟩
        (fun _ => (Except.error (FS.PyError.transient "429") : Except FS.PyError Unit))).1
      = .error (FS.PyError.transient "429") ∧
    List.Chain' (· ≤ ·) (FS.execute_with_retry ⟨3, 1, 6⟩
        (fun _ => (Except.error (FS.PyError.transient "429") : Except FS.PyError Unit))).2.2 ∧
    (∀ d ∈ (FS.execute_with_retry ⟨3, 1, 6⟩
        (fun _ => (Except.error (FS.PyError.transient "429") : Except FS.PyError Unit))).2.2,
      d ≤ 6) :=
  C4_retry_exhaustion ⟨3, 1, 6⟩ _ (fun _ => FS.PyError.transient "429")
    (fun _ => rfl) (by norm_num)

/-- Claim C5 counterexample: with the deployed policy (max_retries = 3,
base_delay = 1, max_delay = 6), an operation that always raises a
non-retryable (permanent) error is invoked 4 times with backoff sleeps
[1, 2, 4] — not propagated immediately after the first attempt without
sleeping.  The source catches every Exception and has no retryable
classification at all. -/
theorem C5_counterexample :
    (FS.PyError.permanent "401").retryable = false ∧
    (FS.execute_with_retry ⟨3, 1, 6⟩
        (fun _ => (Except.error (FS.PyError.permanent "401") : Except FS.PyError Unit))).2.1
      = 4 ∧
    (FS.execute_with_retry ⟨3, 1, 6⟩
        (fun _ => (Except.error (FS.PyError.permanent "401") : Except FS.PyError Unit))).2.2
      = [1, 2, 4] ∧
    ¬ ((FS.execute_with_retry ⟨3, 1, 6⟩
          (fun _ => (Except.error (FS.PyError.permanent "401") : Except FS.PyError Unit))).2.1
        = 1 ∧
       (FS.execute_with_retry ⟨3, 1, 6⟩
          (fun _ => (Except.error (FS.PyError.permanent "401") : Except FS.PyError Unit))).2.2
        = []) := by
  have h := FS.retryGo_allFail (α := Unit) 1 6
      (fun _ => .error (FS.PyError.permanent "401"))
      (fun _ => FS.PyError.permanent "401") (fun _ => rfl) 3 0
  have hrun : (FS.execute_with_retry ⟨3, 1, 6⟩
      (fun _ => (Except.error (FS.PyError.permanent "401") : Except FS.PyError Unit)))
      = (.error (FS.PyError.permanent "401"), 4,
          (List.range 3).map (fun i => min ((1 : ℚ) * 2 ^ (0 + i)) 6)) := by
    rw [FS.execute_with_retry, h]
  have hd : (List.range 3).map (fun i => min ((1 : ℚ) * 2 ^ (0 + i)) 6)
      = [1, 2, 4] := by
    norm_num [List.range_succ]
  refine ⟨rfl, ?_, ?_, ?_⟩
  · rw [hrun]
  · rw [hrun]
    exact hd
  · rw [hrun, hd]
    rintro ⟨h1, -⟩
    exact absurd h1 (by norm_num)

/-- Claim C5 amended: execute_with_retry draws no distinction between
retryable and non-retryable failures — every error, the permanent ones
included, consumes the full attempt budget: the operation is invoked
max_retries + 1 times, max_retries backoff sleeps are performed, and only
then is the error re-raised as-is. -/
theorem C5_all_errors_retried {α : Type} (p : FS.RetryPolicy) (e : FS.PyError)
    (op : ℕ → Except FS.PyError α) (hfail : ∀ i, op i = .error e) :
    (FS.execute_with_retry p op).1 = .error e ∧
    (FS.execute_with_retry p op).2.1 = p.max_retries + 1 ∧
    (FS.execute_with_retry p op).2.2.length = p.max_retries := by
  have h := FS.retryGo_allFail p.base_delay p.max_delay op (fun _ => e) hfail
      p.max_retries 0
  rw [FS.execute_with_retry, h]
  simp

/-- Witness for the amended C5: a permanently failing operation under the
deployed policy is attempted 4 times, sleeps 3 times, and the permanent
error is the one finally raised. -/
theorem C5_all_errors_retried_witness :
    (FS.execute_with_retry ⟨3, 1, 6⟩
        (fun _ => (Except.error (FS.PyError.permanent "401") : Except FS.PyError Unit))).1
      = .error (FS.PyError.permanent "401") ∧
    (FS.execute_with_retry ⟨3, 1, 6⟩
        (fun _ => (Except.error (FS.PyError.permanent "401") : Except FS.PyError Unit))).2.1
      = 4 ∧
    (FS.execute_with_retry ⟨3, 1, 6⟩
        (fun _ => (Except.error (FS.PyError.permanent "401") : Except FS.PyError Unit))).2.2.length
      = 3 :=
  C5_all_errors_retried ⟨3, 1, 6⟩ (FS.PyError.permanent "401") _ (fun _ => rfl)


/-! ## Claims C2 and C9 -/

/-- Claim C2 counterexample: the display names John Smith and Jon Smith
have similarity ratio 1800/19 / 100, strictly above the 0.90 threshold,
and the two results share no identifier, yet merge_search_results keeps
both entries; two results that do share the identifier X1 but differ in
name also both survive; and for two results with identical name and
identifier the retained entry is the first-encountered one, the one with
the lower confidence.  The source deduplicates by exact equality of the
name_fsId key only and never computes a similarity ratio. -/
theorem C2_counterexample :
    (9 / 10 : ℚ) < FS.Router.fuzzSimilarity "John Smith" "Jon Smith" / 100 ∧
    ({ name := "John Smith", fsId := "A1", confidence := 95/100 }
        : FS.Router.RRDict).fsId
      ≠ ({ name := "Jon Smith", fsId := "B2", confidence := 90/100 }
        : FS.Router.RRDict).fsId ∧
    (FS.Router.merge_search_results
      [{ name := "John Smith", fsId := "A1", confidence := 95/100 },
       { name := "Jon Smith", fsId := "B2", confidence := 90/100 }]).length = 2 ∧
    (FS.Router.merge_search_results
      [{ name := "John Smith", fsId := "X1", confidence := 9/10 },
       { name := "J. Smith", fsId := "X1", confidence := 8/10 }]).length = 2 ∧
    FS.Router.merge_search_results
      [{ name := "John Smith", fsId := "X1", confidence := 1/2 },
       { name := "John Smith", fsId := "X1", confidence := 9/10 }]
      = [{ name := "John Smith", fsId := "X1", confidence := 1/2 }] := by
  refine ⟨?_, by decide, ?_, ?_, ?_⟩
  · have hlcs : FS.Router.lcsLen "John Smith".data "Jon Smith".data = 9 := by decide
    have hl1 : "John Smith".data.length = 10 := by decide
    have hl2 : "Jon Smith".data.length = 9 := by decide
    rw [FS.Router.fuzzSimilarity, if_neg (by decide), hlcs, hl1, hl2]
    norm_num
  · have hd : FS.Router.dedupFirst []
        [{ name := "John Smith", fsId := "A1", confidence := 95/100 },
         { name := "Jon Smith", fsId := "B2", confidence := 90/100 }]
        = [{ name := "John Smith", fsId := "A1", confidence := 95/100 },
           { name := "Jon Smith", fsId := "B2", confidence := 90/100 }] := by
      rw [FS.Router.dedupFirst, if_neg (by decide),
        FS.Router.dedupFirst, if_neg (by decide), FS.Router.dedupFirst]
    rw [FS.Router.merge_search_results, hd, List.length_insertionSort]
    rfl
  · have hd : FS.Router.dedupFirst []
        [{ name := "John Smith", fsId := "X1", confidence := 9/10 },
         { name := "J. Smith", fsId := "X1", confidence := 8/10 }]
        = [{ name := "John Smith", fsId := "X1", confidence := 9/10 },
           { name := "J. Smith", fsId := "X1", confidence := 8/10 }] := by
      rw [FS.Router.dedupFirst, if_neg (by decide),
        FS.Router.dedupFirst, if_neg (by decide), FS.Router.dedupFirst]
    rw [FS.Router.merge_search_results, hd, List.length_insertionSort]
    rfl
  · have hd : FS.Router.dedupFirst []
        [{ name := "John Smith", fsId := "X1", confidence := 1/2 },
         { name := "John Smith", fsId := "X1", confidence := 9/10 }]
        = [{ name := "John Smith", fsId := "X1", confidence := 1/2 }] := by
      rw [FS.Router.dedupFirst, if_neg (by decide),
        FS.Router.dedupFirst, if_pos (by decide), FS.Router.dedupFirst]
    rw [FS.Router.merge_search_results, hd]
    rfl

/-- Claim C2 amended: two results are collapsed into exactly one entry iff
they agree on the name_fsId dedup key, i.e. share both display name and
provider identifier; the retained entry is the first-encountered instance
(the source never compares confidences when deduplicating); two results
with distinct keys both survive (up to the subsequent confidence sort). -/
theorem C2_dedup_by_exact_key (r1 r2 : FS.Router.RRDict) :
    (FS.Router.dedupKey r1 = FS.Router.dedupKey r2 →
      FS.Router.merge_search_results [r1, r2] = [r1]) ∧
    (FS.Router.dedupKey r1 ≠ FS.Router.dedupKey r2 →
      List.Perm (FS.Router.merge_search_results [r1, r2]) [r1, r2]) := by
  constructor
  · intro h
    have hd : FS.Router.dedupFirst [] [r1, r2] = [r1] := by
      rw [FS.Router.dedupFirst, if_neg (List.not_mem_nil _),
        FS.Router.dedupFirst, if_pos (by simp [h]), FS.Router.dedupFirst]
    rw [FS.Router.merge_search_results, hd]
    rfl
  · intro h
    have hd : FS.Router.dedupFirst [] [r1, r2] = [r1, r2] := by
      rw [FS.Router.dedupFirst, if_neg (List.not_mem_nil _),
        FS.Router.dedupFirst, if_neg (by simp [Ne.symm h]), FS.Router.dedupFirst]
    rw [FS.Router.merge_search_results, hd]
    exact List.perm_insertionSort FS.Router.confGe [r1, r2]

/-- Witness for the amended C2: two concrete results with equal name and
identifier collapse to the first (lower-confidence) one; two with distinct
identifiers both survive. -/
theorem C2_dedup_by_exact_key_witness :
    FS.Router.merge_search_results
      [{ name := "John Smith", fsId := "X1", confidence := 1/2 },
       { name := "John Smith", fsId := "X1", confidence := 9/10 }]
      = [{ name := "John Smith", fsId := "X1", confidence := 1/2 }] ∧
    List.Perm
      (FS.Router.merge_search_results
        [{ name := "John Smith", fsId := "A1", confidence := 95/100 },
         { name := "Jon Smith", fsId := "B2", confidence := 90/100 }])
      [{ name := "John Smith", fsId := "A1", confidence := 95/100 },
       { name := "Jon Smith", fsId := "B2", confidence := 90/100 }] :=
  ⟨(C2_dedup_by_exact_key _ _).1 rfl, (C2_dedup_by_exact_key _ _).2 (by decide)⟩

/-- Claim C9: the merged output is sorted by descending confidence, and for
every confidence value c the entries of the output with confidence c are
exactly the deduplication survivors with confidence c in their original
order — in particular a subsequence of the input in its original
provider-response order (the sort is stable). -/
theorem C9_sorted_stable (l : List FS.Router.RRDict) :
    List.Sorted FS.Router.confGe (FS.Router.merge_search_results l) ∧
    (∀ c : ℚ,
      (FS.Router.merge_search_results l).filter (fun r => r.confidence == c)
        = (FS.Router.dedupFirst [] l).filter (fun r => r.confidence == c)) ∧
    (∀ c : ℚ, List.Sublist
      ((FS.Router.merge_search_results l).filter (fun r => r.confidence == c))
      (l.filter (fun r => r.confidence == c))) := by
  refine ⟨List.sorted_insertionSort FS.Router.confGe _, ?_, ?_⟩
  · intro c
    rw [FS.Router.merge_search_results, FS.Router.filter_insertionSort]
  · intro c
    rw [FS.Router.merge_search_results, FS.Router.filter_insertionSort]
    exact (FS.Router.dedupFirst_sublist [] l).filter _

/-- Helper: absorbing a transport failure into an empty success does not
change what call_familysearch_api hands to the router. -/
theorem FS.Router.call_api_list_absorb {α : Type} (r : Except PyError (List α)) :
    call_api_list (absorbList r) = call_api_list r := by
  cases r <;> rfl

/-- Helper: likewise for optional payloads. -/
theorem FS.Router.call_api_opt_absorb {α : Type} (r : Except PyError (Option α)) :
    call_api_opt (absorbOpt r) = call_api_opt r := by
  cases r <;> rfl

/-- Helper: the familysearch branch produces the same results whether a
sub-call fails or merely returns nothing. -/
theorem FS.Router.providerResults_absorb (env : RouterEnv) (query : String)
    (filters : Filters) :
    providerResults (absorbFailures env) query filters
      = providerResults env query filters := by
  simp only [providerResults, collectionsBlock, treeBlock, recordsBlock,
    searchBlock, absorbFailures, call_api_list_absorb, call_api_opt_absorb]

/-- Helper: search_records is blind to the difference between upstream
failures and empty upstream successes. -/
theorem FS.Router.search_records_absorb (env : RouterEnv) (query : String)
    (providers : List String) (filters : Filters) :
    search_records (absorbFailures env) query providers filters
      = search_records env query providers filters := by
  simp only [search_records, providerResults_absorb]

/-- Helper: when all four upstream interactions fail, the familysearch
branch contributes nothing. -/
theorem FS.Router.providerResults_allFail (e : PyError) (query : String)
    (filters : Filters) :
    providerResults ⟨.error e, .error e, .error e, fun _ => .error e⟩
      query filters = [] := by
  rw [providerResults, collectionsBlock, treeBlock, recordsBlock, searchBlock]
  simp [call_api_list, call_api_opt]

/-- Helper: when all four upstream interactions fail, search_records
returns the empty list — a plain success carrying no failure record. -/
theorem FS.Router.search_records_allFail (e : PyError) (query : String)
    (providers : List String) (filters : Filters) :
    search_records ⟨.error e, .error e, .error e, fun _ => .error e⟩
      query providers filters = [] := by
  rw [search_records]
  simp only [providerResults_allFail, List.append_nil, ite_self]
  have hfold : ∀ (ps : List String) (acc : List RRDict),
      ps.foldl (fun acc _ => acc) acc = acc := by
    intro ps
    induction ps with
    | nil => intro acc; rfl
    | cons p ps ih =>
      intro acc
      rw [List.foldl_cons]
      exact ih acc
  rw [hfold]
  rfl

/-! ## Claim C3 -/

/-- Claim C3 counterexample: with every upstream interaction failing,
search_records returns the empty list — an empty success identical to the
output under an environment where every interaction succeeds with no data,
so callers cannot distinguish "no matches" from "could not reach any
source"; and in a mixed environment (two collections succeed,
the census search call raises) the two successful results are returned but
nothing records the failure: the output is identical to that of an
environment where the search call succeeds emptily. -/
theorem C3_counterexample :
    FS.Router.search_records
      ⟨.error (FS.PyError.permanent "down"), .error (FS.PyError.permanent "down"),
       .error (FS.PyError.permanent "down"), fun _ => .error (FS.PyError.permanent "down")⟩
      "John Smith" ["familysearch"] {} = [] ∧
    FS.Router.search_records
      ⟨.error (FS.PyError.permanent "down"), .error (FS.PyError.permanent "down"),
       .error (FS.PyError.permanent "down"), fun _ => .error (FS.PyError.permanent "down")⟩
      "John Smith" ["familysearch"] {}
      = FS.Router.search_records ⟨.ok [], .ok none, .ok none, fun _ => .ok []⟩
          "John Smith" ["familysearch"] {} ∧
    FS.Router.search_records
      ⟨.ok [⟨some "Ancestry A", some "C1"⟩, ⟨some "Ancestry B", some "C2"⟩],
       .ok none, .ok none, fun _ => .error (FS.PyError.permanent "down")⟩
      "John Smith" ["familysearch"] {}
      = FS.Router.search_records
          ⟨.ok [⟨some "Ancestry A", some "C1"⟩, ⟨some "Ancestry B", some "C2"⟩],
           .ok none, .ok none, fun _ => .ok []⟩
          "John Smith" ["familysearch"] {} ∧
    (FS.Router.search_records
      ⟨.ok [⟨some "Ancestry A", some "C1"⟩, ⟨some "Ancestry B", some "C2"⟩],
       .ok none, .ok none, fun _ => .error (FS.PyError.permanent "down")⟩
      "John Smith" ["familysearch"] {}).length = 2 := by
  refine ⟨FS.Router.search_records_allFail _ _ _ _, ?_, rfl, ?_⟩
  · rw [FS.Router.search_records_allFail]
    rfl
  · have hpr : FS.Router.search_records
        ⟨.ok [⟨some "Ancestry A", some "C1"⟩, ⟨some "Ancestry B", some "C2"⟩],
         .ok none, .ok none, fun _ => .error (FS.PyError.permanent "down")⟩
        "John Smith" ["familysearch"] {}
        = FS.Router.merge_search_results
            [{ provider := "familysearch", name := "Collection: Ancestry A",
               recordUrl := "https://familysearch.org/collections/C1",
               fsId := "C1", confidence := 8/10, type := "collection_info" },
             { provider := "familysearch", name := "Collection: Ancestry B",
               recordUrl := "https://familysearch.org/collections/C2",
               fsId := "C2", confidence := 8/10, type := "collection_info" }] := by
      rfl
    rw [hpr, FS.Router.merge_search_results, List.length_insertionSort]
    rw [FS.Router.dedupFirst, if_neg (List.not_mem_nil _),
      FS.Router.dedupFirst, if_neg (by decide), FS.Router.dedupFirst]
    rfl

/-- Claim C3 amended: sub-call failures are isolated — search_records
behaves exactly as if every failing upstream interaction had succeeded
with no data, so the failure of one interaction never discards the
results of another — but failures are only logged, never put in the returned
value, and when every interaction fails the result is the empty list, an
empty success rather than an aggregate failure. -/
theorem C3_failure_isolation (env : FS.Router.RouterEnv) (e : FS.PyError)
    (query : String) (providers : List String) (filters : FS.Router.Filters) :
    FS.Router.search_records (FS.Router.absorbFailures env) query providers filters
      = FS.Router.search_records env query providers filters ∧
    FS.Router.search_records
      ⟨.error e, .error e, .error e, fun _ => .error e⟩ query providers filters
      = [] :=
  ⟨FS.Router.search_records_absorb env query providers filters,
   FS.Router.search_records_allFail e query providers filters⟩

/-- Helper: a freshly put entry is the first match for its key. -/
theorem FS.WebSearch.find_cachePut {α : Type} (c : List (String × α × ℚ))
    (k : String) (v : α) (t : ℚ) :
    (cachePut c k v t).find? (fun e => e.1 == k) = some (k, v, t) := by
  simp [cachePut]

/-! ## Claims C7, C8, C10 -/

/-- Claim C7: a put(fp, r) followed by a get(fp) strictly within the TTL
returns exactly r, and once the TTL has elapsed since insertion the get
reports a miss (the value none, not an error). -/
theorem C7_cache_put_get {α : Type} (c : List (String × α × ℚ)) (k : String)
    (v : α) (tp tg ttl : ℚ) :
    (tg - tp < ttl →
      (FS.WebSearch.cacheGet (FS.WebSearch.cachePut c k v tp) k tg ttl).1
        = some v) ∧
    (ttl ≤ tg - tp →
      (FS.WebSearch.cacheGet (FS.WebSearch.cachePut c k v tp) k tg ttl).1
        = none) := by
  constructor
  · intro h
    rw [FS.WebSearch.cacheGet, FS.WebSearch.find_cachePut]
    simp [if_pos h]
  · intro h
    rw [FS.WebSearch.cacheGet, FS.WebSearch.find_cachePut]
    simp [if_neg (not_lt.mpr h)]

/-- Witness for C7: put at time 0 with TTL 3600; a get at time 1 returns
the stored result set, a get at time 3600 misses. -/
theorem C7_cache_put_get_witness :
    (FS.WebSearch.cacheGet
      (FS.WebSearch.cachePut
        ([] : List (String × List FS.WebSearch.SearchResult × ℚ)) "fp" [] 0)
      "fp" 1 3600).1 = some [] ∧
    (FS.WebSearch.cacheGet
      (FS.WebSearch.cachePut
        ([] : List (String × List FS.WebSearch.SearchResult × ℚ)) "fp" [] 0)
      "fp" 3600 3600).1 = none :=
  ⟨(C7_cache_put_get [] "fp" [] 0 1 3600).1 (by norm_num),
   (C7_cache_put_get [] "fp" [] 0 3600 3600).2 (by norm_num)⟩

/-- Claim C8 counterexample: two requests whose given names differ only in
whitespace (they agree after whitespace removal) produce different cache
keys — the fingerprint applies no whitespace normalization. -/
theorem C8_counterexample :
    FS.WebSearch.stripWS " John" = FS.WebSearch.stripWS "John" ∧
    FS.WebSearch.cache_key
        { given_name := some " John", surname := some "Smith", year := some 1850 }
      ≠ FS.WebSearch.cache_key
        { given_name := some "John", surname := some "Smith", year := some 1850 } := by
  constructor
  · rfl
  · decide

/-- Claim C8 amended: the fingerprint is a function of the six keyed
parameter values alone (so it is independent of how the request was
assembled, in particular of any parameter ordering), but parameter values
that differ in whitespace give different fingerprints. -/
theorem C8_fingerprint_determined_by_values
    (q1 q2 : FS.WebSearch.SearchRequest)
    (hg : q1.given_name = q2.given_name) (hs : q1.surname = q2.surname)
    (hy : q1.year = q2.year) (hl : q1.location = q2.location)
    (hr : q1.record_type = q2.record_type)
    (hm : q1.max_results = q2.max_results) :
    FS.WebSearch.cache_key q1 = FS.WebSearch.cache_key q2 := by
  rw [FS.WebSearch.cache_key, FS.WebSearch.cache_key, hg, hs, hy, hl, hr, hm]

/-- Witness for the amended C8: two requests agreeing on the six keyed
fields (one also carries a year_range) have the same fingerprint. -/
theorem C8_fingerprint_determined_by_values_witness :
    FS.WebSearch.cache_key { given_name := some "John", surname := some "Smith" }
      = FS.WebSearch.cache_key
          { given_name := some "John", surname := some "Smith",
            year_range := some "1840-1860" } :=
  C8_fingerprint_determined_by_values _ _ rfl rfl rfl rfl rfl rfl

/-- Claim C10: two search requests that differ only in year_range produce
the same fingerprint, the same upstream search parameters, and the same
search_records outcome in every state and environment: year_range never
influences the returned results. -/
theorem C10_year_range_never_influences (cfg : FS.WebSearch.WSConfig)
    (env : FS.WebSearch.Web) (st : FS.WebSearch.WSState)
    (req : FS.WebSearch.SearchRequest) (yr : Option String) :
    FS.WebSearch.cache_key { req with year_range := yr }
      = FS.WebSearch.cache_key req ∧
    FS.WebSearch.buildSearchParams { req with year_range := yr }
      = FS.WebSearch.buildSearchParams req ∧
    FS.WebSearch.search_records cfg env st { req with year_range := yr }
      = FS.WebSearch.search_records cfg env st req := by
  cases req
  exact ⟨rfl, rfl, rfl⟩

/-- Helper: when the operation succeeds at the state it is first given,
the retry loop returns that outcome unchanged regardless of the attempt
budget. -/
theorem FS.WebSearch.retryGoSt_ok (base maxd : ℚ)
    (op : WSState → Except PyError (List SearchResult) × WSState)
    (st st1 : WSState) (rs : List SearchResult)
    (hop : op st = (.ok rs, st1)) :
    ∀ attempt fuel, retryGoSt base maxd op attempt fuel st = (.ok rs, st1) := by
  intro attempt fuel
  cases fuel with
  | zero => rw [retryGoSt, hop]
  | succ f => rw [retryGoSt, hop]

/-! ## Claim C6 -/

/-- Claim C6: starting from a state whose cache has no entry for the query
fingerprint, a successful search performs exactly one upstream call and one
retry execution; repeating the identical query at any later time t2 within
the TTL of the insertion returns the identical result list and leaves the
whole searcher state unchanged — no upstream call, no rate-limiter
acquisition and no retry execution happen on the second invocation. -/
theorem C6_cached_repeat_is_free (cfg : FS.WebSearch.WSConfig)
    (env : FS.WebSearch.Web) (st : FS.WebSearch.WSState)
    (req : FS.WebSearch.SearchRequest) (rs : List FS.WebSearch.SearchResult)
    (t2 : ℚ)
    (hmiss : st.cache.find? (fun e => e.1 == FS.WebSearch.cache_key req) = none)
    (henv : env (FS.WebSearch.buildSearchParams req) = .ok rs)
    (hfresh : t2 - st.now < cfg.cache_ttl) :
    (FS.WebSearch.search_records cfg env st req).1
        = .ok (rs.take req.max_results) ∧
    (FS.WebSearch.search_records cfg env st req).2.upstream_calls
        = st.upstream_calls + 1 ∧
    (FS.WebSearch.search_records cfg env st req).2.retry_execs
        = st.retry_execs + 1 ∧
    FS.WebSearch.search_records cfg env
        { (FS.WebSearch.search_records cfg env st req).2 with now := t2 } req
      = ((FS.WebSearch.search_records cfg env st req).1,
         { (FS.WebSearch.search_records cfg env st req).2 with now := t2 }) := by
  have hop : FS.WebSearch.performSearch cfg env req
      ⟨st.cache, st.rl, st.now, st.upstream_calls, st.retry_execs + 1⟩
      = (.ok (rs.take req.max_results),
         ⟨st.cache, (FS.acquire cfg.rl st.rl st.now).1,
          (FS.acquire cfg.rl st.rl st.now).2,
          st.upstream_calls + 1, st.retry_execs + 1⟩) := by
    rw [FS.WebSearch.performSearch, henv]
  have hget : FS.WebSearch.cacheGet st.cache (FS.WebSearch.cache_key req)
      st.now cfg.cache_ttl = (none, st.cache) := by
    rw [FS.WebSearch.cacheGet, hmiss]
  have hfirst : FS.WebSearch.search_records cfg env st req
      = (.ok (rs.take req.max_results),
         ⟨FS.WebSearch.cachePut st.cache (FS.WebSearch.cache_key req)
            (rs.take req.max_results) st.now,
          (FS.acquire cfg.rl st.rl st.now).1,
          (FS.acquire cfg.rl st.rl st.now).2,
          st.upstream_calls + 1, st.retry_execs + 1⟩) := by
    rw [FS.WebSearch.search_records]
    simp only [hget, FS.WebSearch.execute_with_retry_st]
    rw [FS.WebSearch.retryGoSt_ok _ _ _ _ _ _ hop 0 _]
  have hfind2 : (FS.WebSearch.cachePut st.cache (FS.WebSearch.cache_key req)
        (rs.take req.max_results) st.now).find?
        (fun e => e.1 == FS.WebSearch.cache_key req)
      = some (FS.WebSearch.cache_key req, rs.take req.max_results, st.now) :=
    FS.WebSearch.find_cachePut _ _ _ _
  have hget2 : FS.WebSearch.cacheGet
      (FS.WebSearch.cachePut st.cache (FS.WebSearch.cache_key req)
        (rs.take req.max_results) st.now)
      (FS.WebSearch.cache_key req) t2 cfg.cache_ttl
      = (some (rs.take req.max_results),
         FS.WebSearch.cachePut st.cache (FS.WebSearch.cache_key req)
           (rs.take req.max_results) st.now) := by
    rw [FS.WebSearch.cacheGet, hfind2]
    simp [if_pos hfresh]
  refine ⟨by rw [hfirst], by rw [hfirst], by rw [hfirst], ?_⟩
  rw [hfirst]
  rw [FS.WebSearch.search_records]
  simp only [hget2]

/-- Witness for C6: default configuration, empty cache, clock at 1000, an
upstream that returns one parsed record; the first call returns that
record with one upstream call and one retry execution, and repeating the
query at time 2000 (within the 3600 s TTL) returns the same answer with
the state — counters, rate limiter and cache — unchanged. -/
theorem C6_cached_repeat_is_free_witness :
    (FS.WebSearch.search_records {}
        (fun _ => .ok [⟨"John Smith", "https://x", "Census", none, none, none, none⟩])
        ⟨[], FS.RLState.init, 1000, 0, 0⟩
        { given_name := some "John", surname := some "Smith", year := some 1850 }).1
      = .ok [⟨"John Smith", "https://x", "Census", none, none, none, none⟩] ∧
    (FS.WebSearch.search_records {}
        (fun _ => .ok [⟨"John Smith", "https://x", "Census", none, none, none, none⟩])
        ⟨[], FS.RLState.init, 1000, 0, 0⟩
        { given_name := some "John", surname := some "Smith", year := some 1850 }).2.upstream_calls
      = 1 ∧
    (FS.WebSearch.search_records {}
        (fun _ => .ok [⟨"John Smith", "https://x", "Census", none, none, none, none⟩])
        ⟨[], FS.RLState.init, 1000, 0, 0⟩
        { given_name := some "John", surname := some "Smith", year := some 1850 }).2.retry_execs
      = 1 ∧
    FS.WebSearch.search_records {}
        (fun _ => .ok [⟨"John Smith", "https://x", "Census", none, none, none, none⟩])
        { (FS.WebSearch.search_records {}
            (fun _ => .ok [⟨"John Smith", "https://x", "Census", none, none, none, none⟩])
            ⟨[], FS.RLState.init, 1000, 0, 0⟩
            { given_name := some "John", surname := some "Smith", year := some 1850 }).2
          with now := 2000 }
        { given_name := some "John", surname := some "Smith", year := some 1850 }
      = ((FS.WebSearch.search_records {}
            (fun _ => .ok [⟨"John Smith", "https://x", "Census", none, none, none, none⟩])
            ⟨[], FS.RLState.init, 1000, 0, 0⟩
            { given_name := some "John", surname := some "Smith", year := some 1850 }).1,
         { (FS.WebSearch.search_records {}
            (fun _ => .ok [⟨"John Smith", "https://x", "Census", none, none, none, none⟩])
            ⟨[], FS.RLState.init, 1000, 0, 0⟩
            { given_name := some "John", surname := some "Smith", year := some 1850 }).2
          with now := 2000 }) :=
  C6_cached_repeat_is_free {}
    (fun _ => .ok [⟨"John Smith", "https://x", "Census", none, none, none, none⟩])
    ⟨[], FS.RLState.init, 1000, 0, 0⟩
    { given_name := some "John", surname := some "Smith", year := some 1850 }
    [⟨"John Smith", "https://x", "Census", none, none, none, none⟩] 2000
    rfl rfl (by norm_num)
